import Mathlib

/-!
Verification development for the AutoSLTPBitunix stop-loss / take-profit
automation bot.  The definitions below are a shallow embedding of the
Python sources (`script.py` and `bitunix_api/http_client.py`): pure
functions become Lean functions, the stateful main loop becomes explicit
state passing over a `BotState` record, exchange calls are modelled by an
environment record of call outcomes, and exceptions become `Except`.
Prices and monetary quantities are modelled by `ℚ` (the code routes all
price arithmetic through Python's exact `Decimal`/`str` path).
-/

set_option maxRecDepth 4000

namespace AutoSLTP

/-! ## Rational truncation toward zero (Python Decimal ROUND_DOWN) -/

/-- Truncation toward zero of a rational, as an integer.  This is the
behaviour of Python's `Decimal.quantize(Decimal(1), rounding=ROUND_DOWN)`:
floor for non-negative inputs, ceiling for negative ones. -/
def truncQ (q : ℚ) : ℤ :=
  if 0 ≤ q then ⌊q⌋ else ⌈q⌉

/-! ## SHA-256 (executable, over `Nat` words reduced mod 2^32)

`hashlib.sha256(...).hexdigest()` as used by `generate_signature` in
`bitunix_api/http_client.py`.  Bytes and 32-bit words are `Nat`s kept
below their bound by explicit `% 2^32` reductions. -/

/-- Reduce a natural number to a 32-bit word. -/
def w32 (n : Nat) : Nat := n % 4294967296

/-- Right rotation of a 32-bit word by `k` bits. -/
def rotr32 (k x : Nat) : Nat := w32 ((x >>> k) ||| (x <<< (32 - k)))

/-- Bitwise complement of a 32-bit word. -/
def not32 (x : Nat) : Nat := 4294967295 - x

/-- SHA-256 `Ch` function. -/
def sha2Ch (x y z : Nat) : Nat := (x &&& y) ^^^ (not32 x &&& z)

/-- SHA-256 `Maj` function. -/
def sha2Maj (x y z : Nat) : Nat := (x &&& y) ^^^ (x &&& z) ^^^ (y &&& z)

/-- SHA-256 upper-case sigma 0 (rotations by 2, 13, 22). -/
def bigSigma0 (x : Nat) : Nat := rotr32 2 x ^^^ (rotr32 13 x ^^^ rotr32 22 x)

/-- SHA-256 upper-case sigma 1 (rotations by 6, 11, 25). -/
def bigSigma1 (x : Nat) : Nat := rotr32 6 x ^^^ (rotr32 11 x ^^^ rotr32 25 x)

/-- SHA-256 lower-case sigma 0 (rotations by 7, 18, shift by 3). -/
def smallSigma0 (x : Nat) : Nat := rotr32 7 x ^^^ (rotr32 18 x ^^^ (x >>> 3))

/-- SHA-256 lower-case sigma 1 (rotations by 17, 19, shift by 10). -/
def smallSigma1 (x : Nat) : Nat :=
  rotr32 17 x ^^^ (rotr32 19 x ^^^ (x >>> 10))

/-- The 64 SHA-256 round constants of FIPS 180-4, in decimal. -/
def sha2K : List Nat :=
  [1116352408, 1899447441, 3049323471, 3921009573,
   961987163, 1508970993, 2453635748, 2870763221,
   3624381080, 310598401, 607225278, 1426881987,
   1925078388, 2162078206, 2614888103, 3248222580,
   3835390401, 4022224774, 264347078, 604807628,
   770255983, 1249150122, 1555081692, 1996064986,
   2554220882, 2821834349, 2952996808, 3210313671,
   3336571891, 3584528711, 113926993, 338241895,
   666307205, 773529912, 1294757372, 1396182291,
   1695183700, 1986661051, 2177026350, 2456956037,
   2730485921, 2820302411, 3259730800, 3345764771,
   3516065817, 3600352804, 4094571909, 275423344,
   430227734, 506948616, 659060556, 883997877,
   958139571, 1322822218, 1537002063, 1747873779,
   1955562222, 2024104815, 2227730452, 2361852424,
   2428436474, 2756734187, 3204031479, 3329325298]

/-- The initial SHA-256 hash state of FIPS 180-4, in decimal. -/
def sha2H0 : List Nat :=
  [1779033703, 3144134277, 1013904242, 2773480762,
   1359893119, 2600822924, 528734635, 1541459225]

/-- Big-endian byte serialization of a natural number on `k` bytes. -/
def natToBytesBE (k n : Nat) : List Nat :=
  (List.range k).map fun i => (n >>> (8 * (k - 1 - i))) % 256

/-- Pack a byte list into big-endian 32-bit words (groups of 4). -/
def bytesToWords : List Nat → List Nat
  | a :: b :: c :: d :: rest =>
      (a * 16777216 + b * 65536 + c * 256 + d) :: bytesToWords rest
  | _ => []

/-- Split a word list into blocks of 16 words (fuel-based recursion so the
definition reduces inside the kernel). -/
def wordsToBlocksAux : Nat → List Nat → List (List Nat)
  | 0, _ => []
  | _, [] => []
  | fuel + 1, w :: ws =>
      (w :: ws).take 16 :: wordsToBlocksAux fuel ((w :: ws).drop 16)

/-- Split a word list into blocks of 16 words. -/
def wordsToBlocks (ws : List Nat) : List (List Nat) :=
  wordsToBlocksAux ws.length ws

/-- Extend a 16-word block to the 64-word SHA-256 message schedule. -/
def extendSchedule (block : List Nat) : List Nat :=
  (List.range 48).foldl
    (fun w _ =>
      let i := w.length
      w ++ [w32 (smallSigma1 (w.getD (i - 2) 0) + w.getD (i - 7) 0 +
                 smallSigma0 (w.getD (i - 15) 0) + w.getD (i - 16) 0)])
    block

/-- One SHA-256 compression round. -/
def sha2Round (w : List Nat) (s : List Nat) (t : Nat) : List Nat :=
  match s with
  | [a, b, c, d, e, f, g, h] =>
      let t1 := w32 (h + bigSigma1 e + sha2Ch e f g + sha2K.getD t 0 + w.getD t 0)
      let t2 := w32 (bigSigma0 a + sha2Maj a b c)
      [w32 (t1 + t2), a, b, c, w32 (d + t1), e, f, g]
  | _ => s

/-- SHA-256 compression of one 16-word block into the running state. -/
def compressBlock (h : List Nat) (block : List Nat) : List Nat :=
  let w := extendSchedule block
  let s := (List.range 64).foldl (sha2Round w) h
  List.zipWith (fun x y => w32 (x + y)) h s

/-- SHA-256 padding of a byte message. -/
def sha2Pad (msg : List Nat) : List Nat :=
  msg ++ [0x80] ++ List.replicate ((119 - msg.length % 64) % 64) 0 ++
    natToBytesBE 8 (8 * msg.length)

/-- SHA-256 of a byte message, as a 32-byte digest. -/
def sha256Bytes (msg : List Nat) : List Nat :=
  let hs := (wordsToBlocks (bytesToWords (sha2Pad msg))).foldl compressBlock sha2H0
  (hs.map (natToBytesBE 4)).flatten

/-- Lower-case hex character for a value below 16. -/
def hexChar (n : Nat) : Char :=
  if n < 10 then Char.ofNat (48 + n) else Char.ofNat (87 + n)

/-- Lower-case hex string of a byte list. -/
def bytesToHex (bs : List Nat) : String :=
  String.mk ((bs.map fun b => [hexChar (b / 16), hexChar (b % 16)]).flatten)

/-- UTF-8 encoding of a single character, as bytes. -/
def utf8Bytes (c : Char) : List Nat :=
  let n := c.toNat
  if n < 0x80 then [n]
  else if n < 0x800 then
    [0xC0 ||| (n >>> 6), 0x80 ||| (n &&& 0x3F)]
  else if n < 0x10000 then
    [0xE0 ||| (n >>> 12), 0x80 ||| ((n >>> 6) &&& 0x3F), 0x80 ||| (n &&& 0x3F)]
  else
    [0xF0 ||| (n >>> 18), 0x80 ||| ((n >>> 12) &&& 0x3F),
     0x80 ||| ((n >>> 6) &&& 0x3F), 0x80 ||| (n &&& 0x3F)]

/-- UTF-8 encoding of a string, as bytes (`.encode('utf-8')`). -/
def strBytes (s : String) : List Nat :=
  (s.data.map utf8Bytes).flatten

/-- `hashlib.sha256(s.encode('utf-8')).hexdigest()`. -/
def sha256hex (s : String) : String :=
  bytesToHex (sha256Bytes (strBytes s))

/-- NIST test vector: the empty message. -/
example :
    sha256hex "" =
      "e3b0c44298fc1c149afbf4c8996fb92427ae41e4649b934ca495991b7852b855" := by
  decide

/-- NIST test vector: the message "abc". -/
example :
    sha256hex "abc" =
      "ba7816bf8f01cfea414140de5dae2223b00361a396177a9cb410ff61f20015ad" := by
  decide

/-! ## Canonical Signer (`generate_signature` in `http_client.py`) -/

/-- `generate_signature` from `bitunix_api/http_client.py`: double SHA-256
over the concatenated request fields, the secret key appended to the first
hex digest. -/
def generate_signature (api_key secret_key nonce timestamp query_params body :
    String) : String :=
  let digest_input := nonce ++ timestamp ++ api_key ++ query_params ++ body
  let digest := sha256hex digest_input
  let sign_input := digest ++ secret_key
  sha256hex sign_input

/-- The Canonical Signer exactly as the specification words it: concatenate
nonce, timestamp, apiKey, canonicalQuery, canonicalBody; take the SHA-256
hex digest; append the secret key to that hex digest; take SHA-256 again.
Stated as a separate reference definition to compare with the source's
`generate_signature`. -/
def sign_spec (apiKey secretKey nonce timestamp canonicalQuery canonicalBody :
    String) : String :=
  sha256hex (sha256hex (nonce ++ timestamp ++ apiKey ++ canonicalQuery ++
    canonicalBody) ++ secretKey)

/-! ## Canonical query string (`sort_params` in `http_client.py`)

Python compares strings lexicographically by code point; `sorted` on the
items of a dictionary compares the `(key, value)` tuples with that string
order, key first. -/

/-- Code-point lexicographic strict comparison of character lists (Python
string `<`). -/
def lexLt : List Char → List Char → Bool
  | [], [] => false
  | [], _ :: _ => true
  | _ :: _, [] => false
  | a :: as, b :: bs =>
      if a.toNat < b.toNat then true
      else if b.toNat < a.toNat then false
      else lexLt as bs

/-- Python `<` on strings. -/
def pyStrLt (s t : String) : Bool := lexLt s.data t.data

/-- Python `<=` on strings. -/
def pyStrLe (s t : String) : Bool := pyStrLt s t || s == t

lemma lexLt_irrefl : ∀ as : List Char, lexLt as as = false
  | [] => rfl
  | a :: as => by simp [lexLt, lexLt_irrefl as]

lemma lexLt_trans : ∀ {as bs cs : List Char}, lexLt as bs = true →
    lexLt bs cs = true → lexLt as cs = true
  | [], [], _, h1, _ => by simp [lexLt] at h1
  | [], _ :: _, [], _, h2 => by simp [lexLt] at h2
  | [], _ :: _, _ :: _, _, _ => by simp [lexLt]
  | _ :: _, [], _, h1, _ => by simp [lexLt] at h1
  | _ :: _, _ :: _, [], _, h2 => by simp [lexLt] at h2
  | a :: as, b :: bs, c :: cs, h1, h2 => by
      simp only [lexLt] at h1 h2 ⊢
      rcases Nat.lt_trichotomy a.toNat b.toNat with hab | hab | hab <;>
        rcases Nat.lt_trichotomy b.toNat c.toNat with hbc | hbc | hbc <;>
        simp_all [Nat.lt_irrefl] <;>
        first
        | omega
        | exact lexLt_trans h1 h2

lemma lexLt_trichotomy : ∀ as bs : List Char,
    lexLt as bs = true ∨ as = bs ∨ lexLt bs as = true
  | [], [] => Or.inr (Or.inl rfl)
  | [], _ :: _ => Or.inl (by simp [lexLt])
  | _ :: _, [] => Or.inr (Or.inr (by simp [lexLt]))
  | a :: as, b :: bs => by
      rcases Nat.lt_trichotomy a.toNat b.toNat with hab | hab | hab
      · exact Or.inl (by simp [lexLt, hab])
      · have hchar : a = b := Char.eq_of_val_eq (UInt32.ext hab)
        rcases lexLt_trichotomy as bs with h | h | h
        · exact Or.inl (by simp [lexLt, hab, Nat.lt_irrefl, h])
        · exact Or.inr (Or.inl (by rw [hchar, h]))
        · exact Or.inr (Or.inr
            (by simp [lexLt, hab.symm ▸ Nat.lt_irrefl a.toNat, hchar, h]))
      · exact Or.inr (Or.inr (by simp [lexLt, hab]))

lemma lexLt_asymm {as bs : List Char} (h1 : lexLt as bs = true)
    (h2 : lexLt bs as = true) : False := by
  have h := lexLt_trans h1 h2
  rw [lexLt_irrefl] at h
  exact Bool.false_ne_true h

lemma pyStrLe_trans {x y z : String} (h1 : pyStrLe x y = true)
    (h2 : pyStrLe y z = true) : pyStrLe x z = true := by
  simp only [pyStrLe, Bool.or_eq_true, beq_iff_eq] at h1 h2 ⊢
  rcases h1 with h1 | rfl
  · rcases h2 with h2 | rfl
    · exact Or.inl (lexLt_trans h1 h2)
    · exact Or.inl h1
  · exact h2

/-- Ordering used by Python's `sorted` on the `(key, value)` items of a
dictionary: lexicographic on the tuple, key first (as a reflexive total
preorder). -/
def pairLe (p q : String × String) : Prop :=
  pyStrLt p.1 q.1 = true ∨ (p.1 = q.1 ∧ pyStrLe p.2 q.2 = true)

instance : DecidableRel pairLe := fun p q =>
  inferInstanceAs
    (Decidable (pyStrLt p.1 q.1 = true ∨ (p.1 = q.1 ∧ pyStrLe p.2 q.2 = true)))

instance : IsTrans (String × String) pairLe where
  trans p q r hpq hqr := by
    rcases hpq with h1 | ⟨e1, v1⟩
    · rcases hqr with h2 | ⟨e2, _⟩
      · exact Or.inl (lexLt_trans h1 h2)
      · exact Or.inl (e2 ▸ h1)
    · rcases hqr with h2 | ⟨e2, v2⟩
      · exact Or.inl (e1 ▸ h2)
      · exact Or.inr ⟨e1.trans e2, pyStrLe_trans v1 v2⟩

instance : IsTotal (String × String) pairLe where
  total p q := by
    rcases lexLt_trichotomy p.1.data q.1.data with h | h | h
    · exact Or.inl (Or.inl h)
    · have hk : p.1 = q.1 := congrArg String.mk h
      rcases lexLt_trichotomy p.2.data q.2.data with hv | hv | hv
      · exact Or.inl (Or.inr ⟨hk, by simp [pyStrLe, pyStrLt, hv]⟩)
      · have hv' : p.2 = q.2 := congrArg String.mk hv
        exact Or.inl (Or.inr ⟨hk, by simp [pyStrLe, hv']⟩)
      · exact Or.inr (Or.inr ⟨hk.symm, by simp [pyStrLe, pyStrLt, hv]⟩)
    · exact Or.inr (Or.inl h)

/-- The strict key order on `(key, value)` pairs, used to show that a
sorted association list with distinct keys is unique. -/
def pairKeyLt (p q : String × String) : Prop := pyStrLt p.1 q.1 = true

instance : IsAntisymm (String × String) pairKeyLt where
  antisymm _ _ h1 h2 := (lexLt_asymm h1 h2).elim

/-- `sort_params` from `bitunix_api/http_client.py`: empty dictionary gives
the empty string, otherwise the `(key, value)` items are sorted and each
key is concatenated directly with its value, with no separators.  Python
dictionaries are modelled as association lists (with distinct keys). -/
def sort_params (params : List (String × String)) : String :=
  if params = [] then ""
  else String.join ((params.insertionSort pairLe).map fun kv => kv.1 ++ kv.2)

/-! ## POST body serialization (`HttpClient.post` in `http_client.py`)

The request bodies built by this repository are flat JSON objects of
scalar fields, so the embedding models exactly that fragment of Python's
`json.dumps`. -/

/-- A scalar JSON value appearing in a request body. -/
inductive JScalar where
  | num (n : ℤ)
  | str (s : String)
  | bool (b : Bool)
  | null
  deriving DecidableEq

/-- JSON string escaping for the characters relevant here. -/
def json_escape_char (c : Char) : String :=
  if c = Char.ofNat 34 then "\\\""
  else if c = Char.ofNat 92 then "\\\\"
  else String.singleton c

/-- JSON string escaping. -/
def json_escape (s : String) : String :=
  String.join (s.data.map json_escape_char)

/-- Serialization of a scalar JSON value, as Python's `json.dumps` writes
it. -/
def json_dumps_scalar : JScalar → String
  | .num n => toString n
  | .str s => "\"" ++ json_escape s ++ "\""
  | .bool true => "true"
  | .bool false => "false"
  | .null => "null"

/-- Python's `json.dumps` on a flat object with the DEFAULT separators:
when `indent` is `None` the separators default to a comma followed by a
space between items and a colon followed by a space after each key. -/
def json_dumps_obj (obj : List (String × JScalar)) : String :=
  "\x7b" ++
    String.intercalate ", "
      (obj.map fun kv =>
        "\"" ++ json_escape kv.1 ++ "\": " ++ json_dumps_scalar kv.2) ++
    "\x7d"

/-- The canonical body string computed by `HttpClient.post` and passed to
the signer: `request_data = data if data is not None else {}` followed by
`body = json.dumps(request_data)`. -/
def post_sign_body (data : Option (List (String × JScalar))) : String :=
  json_dumps_obj (data.getD [])

/-- The body text the transport puts on the wire for
`self.session.post(url, json=request_data, ...)`.  Modelled from the
`requests` library (third-party, not in this repository): for a `json=`
payload it serializes `request_data` itself with `json.dumps` and the same
default separators. -/
def post_wire_body (data : Option (List (String × JScalar))) : String :=
  json_dumps_obj (data.getD [])

/-! ## Response envelope decoding (`HttpClient._handle_response`) -/

/-- A decoded HTTP response as `_handle_response` sees it: transport status
code plus the embedded business envelope. -/
structure HttpResponse (α : Type) where
  status_code : Nat
  code : ℤ
  msg : String
  data : α

/-- The failures `_handle_response` can raise. -/
inductive ApiFailure where
  | httpStatusError (status : Nat)
  | apiErrorKnown (message : String)
  | apiErrorUnknown (code : ℤ) (msg : String)
  deriving DecidableEq

/-- `HttpClient._handle_response`.  The error table `ErrorCode.get_by_code`
lives in `bitunix_api/error_codes.py`, which is not among the provided
sources; it is modelled from the spec as a parameter resolving a business
code to a known error when possible (`ErrorCode.get_by_code` returns a
known error or a falsy value). -/
def handle_response {α : Type} (getByCode : ℤ → Option String)
    (r : HttpResponse α) : Except ApiFailure α :=
  if r.status_code ≠ 200 then .error (.httpStatusError r.status_code)
  else if r.code ≠ 0 then
    match getByCode r.code with
    | some e => .error (.apiErrorKnown e)
    | none => .error (.apiErrorUnknown r.code r.msg)
  else .ok r.data

/-! ## The bot (`script.py`)

Exchange calls are modelled by an `ApiEnv` record giving each call's
outcome for the current tick (`Except` for calls that can raise).  The
calls the loop issues are recorded as a trace of `Action`s. -/

/-- A Python exception, by kind.  `zeroDivisionError` is the
`ZeroDivisionError` raised by the stop-loss percentage division when the
position's notional value is 0. -/
inductive PyExc where
  | apiError (code : ℤ)
  | httpStatusError (status : Nat)
  | zeroDivisionError
  | other
  deriving DecidableEq

/-- An open position snapshot as returned by
`session.account.get_symbol_open_position`. -/
structure Position where
  qty : ℚ
  avgOpenPrice : ℚ
  entryValue : ℚ
  side : String
  positionId : String
  deriving DecidableEq

/-- An open order as returned by `session.trade.get_symbol_open_orders`. -/
structure OpenOrder where
  orderId : String
  orderType : String
  side : String
  deriving DecidableEq

/-- The order-management API calls a tick can issue. -/
inductive Action where
  | getPendingTpsl (symbol : String)
  | cancelOrders (symbol : String) (orderIds : List String)
  | placePositionTpsl (symbol : String) (positionId : String) (slPrice : ℚ)
  | getOpenOrders (symbol : String)
  | placeOrder (symbol : String) (side : String) (qty : ℚ) (price : ℚ)
      (tradeSide : String) (positionId : String)
  | cancelAllOrders (symbol : String)
  deriving DecidableEq

/-- Outcomes of the exchange calls available during one tick. -/
structure ApiEnv where
  /-- `session.account.get_symbol_open_position` (raises or returns a
  position or `None`). -/
  getPosition : Except PyExc (Option Position)
  /-- `session.market.get_single_trading_pair_info`: raises, or returns a
  falsy value, or an instrument record whose `quotePrecision` field may be
  missing. -/
  instrumentInfo : Except PyExc (Option (Option ℤ))
  /-- `session.trade.get_symbol_pending_tpsl_orders`, reduced to the ids of
  the pending TP/SL orders. -/
  pendingTpslIds : Except PyExc (List String)
  /-- `session.trade.get_symbol_open_orders`, the `orderList` field. -/
  openOrders : Except PyExc (List OpenOrder)
  /-- `session.trade.cancel_orders`. -/
  cancelOrdersResult : Except PyExc Unit
  /-- `session.trade.place_position_tpsl_order`. -/
  placeTpslResult : Except PyExc Unit
  /-- `session.trade.place_order`. -/
  placeOrderResult : Except PyExc Unit
  /-- `session.trade.cancel_all_orders`. -/
  cancelAllResult : Except PyExc Unit

/-- The global state variables of `script.py`. -/
structure BotState where
  symbol : String
  stop_loss_usd : ℚ
  is_active : Bool
  tracked_position_value : ℚ
  is_tp_active : Bool
  tp_percentage : ℚ
  deriving DecidableEq

/-- `reset_bot_state` from `script.py`.  Note: the function declares
`stop_loss_usd` global but its body never assigns it, so the stop-loss
budget is left at its previous value. -/
def reset_bot_state (st : BotState) : BotState :=
  { st with
    is_active := false
    tracked_position_value := 0
    symbol := ""
    is_tp_active := false
    tp_percentage := 0 }

/-- `adjust_price_to_precision` from `script.py`: derive the tick size
`10 ** -int(quote_precision)`, divide, round down (toward zero) to an
integer multiple, multiply back; on any lookup failure return the price
unchanged.  The `Decimal`-string round trip of the source is exact, so the
arithmetic is carried out in `ℚ`. -/
def adjust_price_to_precision (env : ApiEnv) (symbol : String) (price : ℚ) :
    ℚ :=
  match env.instrumentInfo with
  | .error _ => price
  | .ok none => price
  | .ok (some none) => price
  | .ok (some (some quote_precision)) =>
      let tick_size : ℚ := (10 : ℚ) ^ (-quote_precision)
      (truncQ (price / tick_size) : ℚ) * tick_size

/-- The stop-loss trigger price computed at step 4 of the reconciling
branch of `main` (`script.py` lines 264-266).  The division here is the
total division of `ℚ` (`x / 0 = 0`); in the program the same division
raises `ZeroDivisionError` when `position_value_usdt` is 0, and
`active_tick` models that raise explicitly before this formula is used. -/
def compute_stop_price (stop_loss_usd entry_price position_value_usdt : ℚ)
    (side : String) : ℚ :=
  let percentage := stop_loss_usd * 100 / position_value_usdt
  let price_variation := entry_price * (percentage / 100)
  if side = "BUY" then entry_price - price_variation
  else entry_price + price_variation

/-- The take-profit limit price computed at step 6 of the reconciling
branch of `main` (`script.py` lines 280-281). -/
def compute_tp_price (tp_percentage entry_price : ℚ) (side : String) : ℚ :=
  let tp_price_variation := entry_price * (tp_percentage / 100)
  if side = "BUY" then entry_price + tp_price_variation
  else entry_price - tp_price_variation

/-- `cancel_existing_tpsl_orders` from `script.py`: fetch the pending
TP/SL orders and cancel them by id; the whole body is wrapped in
`try/except`, so it never raises. -/
def cancel_existing_tpsl_orders (env : ApiEnv) (symbol : String) :
    List Action :=
  match env.pendingTpslIds with
  | .error _ => [.getPendingTpsl symbol]
  | .ok pending_orders =>
      if pending_orders = [] then [.getPendingTpsl symbol]
      else [.getPendingTpsl symbol, .cancelOrders symbol pending_orders]

/-- `cancel_existing_tp_limit_orders` from `script.py`: cancel open LIMIT
orders on the side opposite the position; wrapped in `try/except`, so it
never raises. -/
def cancel_existing_tp_limit_orders (env : ApiEnv)
    (symbol position_side : String) : List Action :=
  let opposite_side := if position_side = "BUY" then "SELL" else "BUY"
  match env.openOrders with
  | .error _ => [.getOpenOrders symbol]
  | .ok order_list =>
      let tp_orders_to_cancel :=
        (order_list.filter fun o =>
          o.orderType == "LIMIT" && o.side == opposite_side).map
          fun o => o.orderId
      if tp_orders_to_cancel = [] then [.getOpenOrders symbol]
      else [.getOpenOrders symbol, .cancelOrders symbol tp_orders_to_cancel]

/-- `set_position_sl` from `script.py`: adjust the stop price to the
instrument precision, place the position-linked stop-loss order; the place
call sits in `try/except`, so an `ApiError` is caught here and `None`
returned. -/
def set_position_sl (env : ApiEnv) (symbol position_id : String)
    (sl_price : ℚ) : List Action × Option Unit :=
  let adjusted_sl_price := adjust_price_to_precision env symbol sl_price
  match env.placeTpslResult with
  | .ok _ => ([.placePositionTpsl symbol position_id adjusted_sl_price],
      some ())
  | .error _ => ([.placePositionTpsl symbol position_id adjusted_sl_price],
      none)

/-- `set_limit_tp_order` from `script.py`: place a closing LIMIT order as
the take profit; the place call sits in `try/except`, so an `ApiError` is
caught here and `None` returned. -/
def set_limit_tp_order (env : ApiEnv) (symbol side position_id : String)
    (position_qty tp_price : ℚ) : List Action × Option Unit :=
  let close_side := if side = "BUY" then "SELL" else "BUY"
  let adjusted_tp_price := adjust_price_to_precision env symbol tp_price
  match env.placeOrderResult with
  | .ok _ => ([.placeOrder symbol close_side position_qty adjusted_tp_price
      "CLOSE" position_id], some ())
  | .error _ => ([.placeOrder symbol close_side position_qty
      adjusted_tp_price "CLOSE" position_id], none)

/-- The closed-position branch of `main` (`script.py` lines 286-290):
`session.trade.cancel_all_orders` (not wrapped by a local `try`, so it can
raise past this point) followed by `reset_bot_state`. -/
def close_position_branch (env : ApiEnv) (st : BotState) :
    Except PyExc (BotState × List Action) :=
  match env.cancelAllResult with
  | .error e => .error e
  | .ok _ => .ok (reset_bot_state st, [.cancelAllOrders st.symbol])

/-- The ACTIVE-state logic of one iteration of `main`'s loop body
(`script.py` lines 247-290), up to but excluding the top-level `except`
handler.  Raises (`Except.error`) exactly where an exception would escape
to that handler: a raising position fetch, the `ZeroDivisionError` of
`percentage = (stop_loss_usd * 100) / position_value_usdt` when the
notional value is 0 on a reconciling tick, and a raising
`cancel_all_orders` in the closed-position branch. -/
def active_tick (env : ApiEnv) (st : BotState) :
    Except PyExc (BotState × List Action) :=
  match env.getPosition with
  | .error e => .error e
  | .ok current_position =>
      match current_position with
      | some p =>
          if p.qty ≠ 0 then
            if p.entryValue ≠ st.tracked_position_value then
              if p.entryValue = 0 then .error .zeroDivisionError
              else
              let stop_price := compute_stop_price st.stop_loss_usd
                p.avgOpenPrice p.entryValue p.side
              let slActs :=
                if stop_price ≤ 0 then []
                else cancel_existing_tpsl_orders env st.symbol ++
                  (set_position_sl env st.symbol p.positionId stop_price).1
              let tpActs :=
                if st.is_tp_active then
                  cancel_existing_tp_limit_orders env st.symbol p.side ++
                    (set_limit_tp_order env st.symbol p.side p.positionId
                      p.qty
                      (compute_tp_price st.tp_percentage p.avgOpenPrice
                        p.side)).1
                else []
              .ok ({ st with tracked_position_value := p.entryValue },
                slActs ++ tpActs)
            else .ok (st, [])
          else close_position_branch env st
      | none => close_position_branch env st

/-- The tuple returned by `get_user_settings` when the operator supplied a
valid configuration. -/
structure UserSettings where
  symbol : String
  stop_loss_usd : ℚ
  is_tp_active : Bool
  tp_percentage : ℚ
  deriving DecidableEq

/-- The INACTIVE-state logic of one iteration of `main`'s loop body
(`script.py` lines 295-313): read the operator settings (`none` models the
invalid-input return), check for a live position, and activate tracking
with the tracked value forced to `0`. -/
def inactive_tick (env : ApiEnv) (settings : Option UserSettings)
    (st : BotState) : Except PyExc (BotState × List Action) :=
  match settings with
  | none => .ok (st, [])
  | some s =>
      match env.getPosition with
      | .error e => .error e
      | .ok position =>
          match position with
          | some p =>
              if p.qty ≠ 0 then
                .ok ({ symbol := s.symbol
                       stop_loss_usd := s.stop_loss_usd
                       is_tp_active := s.is_tp_active
                       tp_percentage := s.tp_percentage
                       is_active := true
                       tracked_position_value := 0 }, [])
              else .ok (st, [])
          | none => .ok (st, [])

/-- The fixed recovery delay slept by the top-level `except` handler. -/
def RECOVERY_DELAY_SECONDS : Nat := 10

/-- The fixed pause after every iteration. -/
def LOOP_PAUSE_SECONDS : Nat := 1

/-- The result of one full iteration of `main`'s `while True` body: the
new global state, the order-management calls issued, and whether the
10-second recovery sleep of the `except` branch ran. -/
structure TickResult where
  state : BotState
  actions : List Action
  recovery_sleep : Bool
  deriving DecidableEq

/-- One full iteration of `main`'s loop body, including the top-level
`except` handler: an exception escaping the tick is caught, the state is
reset with `reset_bot_state`, and the 10-second recovery sleep runs. -/
def loop_body (env : ApiEnv) (settings : Option UserSettings)
    (st : BotState) : TickResult :=
  if st.is_active then
    match active_tick env st with
    | .ok (st', acts) => ⟨st', acts, false⟩
    | .error _ => ⟨reset_bot_state st, [], true⟩
  else
    match inactive_tick env settings st with
    | .ok (st', acts) => ⟨st', acts, false⟩
    | .error _ => ⟨reset_bot_state st, [], true⟩

/-! ## Helper lemmas about the tick traces -/

lemma set_position_sl_fst (env : ApiEnv) (symbol position_id : String)
    (sl_price : ℚ) :
    (set_position_sl env symbol position_id sl_price).1 =
      [.placePositionTpsl symbol position_id
        (adjust_price_to_precision env symbol sl_price)] := by
  unfold set_position_sl
  cases env.placeTpslResult <;> rfl

lemma set_limit_tp_order_fst (env : ApiEnv) (symbol side position_id : String)
    (position_qty tp_price : ℚ) :
    (set_limit_tp_order env symbol side position_id position_qty tp_price).1 =
      [.placeOrder symbol (if side = "BUY" then "SELL" else "BUY") position_qty
        (adjust_price_to_precision env symbol tp_price) "CLOSE" position_id] := by
  unfold set_limit_tp_order
  cases env.placeOrderResult <;> rfl

lemma mem_cancel_existing_tpsl_orders {env : ApiEnv} {symbol : String}
    {a : Action} (h : a ∈ cancel_existing_tpsl_orders env symbol) :
    a = .getPendingTpsl symbol ∨ ∃ ids, a = .cancelOrders symbol ids := by
  rcases henv : env.pendingTpslIds with e | ids
  · simp [cancel_existing_tpsl_orders, henv] at h
    exact Or.inl h
  · by_cases hids : ids = []
    · simp [cancel_existing_tpsl_orders, henv, hids] at h
      exact Or.inl h
    · simp [cancel_existing_tpsl_orders, henv, hids] at h
      rcases h with h | h
      · exact Or.inl h
      · exact Or.inr ⟨ids, h⟩

lemma mem_cancel_existing_tp_limit_orders {env : ApiEnv}
    {symbol position_side : String} {a : Action}
    (h : a ∈ cancel_existing_tp_limit_orders env symbol position_side) :
    a = .getOpenOrders symbol ∨ ∃ ids, a = .cancelOrders symbol ids := by
  unfold cancel_existing_tp_limit_orders at h
  rcases henv : env.openOrders with e | orders <;> rw [henv] at h <;>
    dsimp only at h
  · simp at h
    exact Or.inl h
  · split at h <;> split at h <;> simp at h <;>
      first
      | exact Or.inl h
      | (rcases h with h | h
         · exact Or.inl h
         · exact Or.inr ⟨_, h⟩)

lemma getOpenOrders_mem_cancel_existing_tp_limit_orders (env : ApiEnv)
    (symbol position_side : String) :
    Action.getOpenOrders symbol ∈
      cancel_existing_tp_limit_orders env symbol position_side := by
  unfold cancel_existing_tp_limit_orders
  rcases env.openOrders with e | orders <;> dsimp only
  · simp
  · split <;> split <;> simp

lemma active_tick_reconcile (env : ApiEnv) (st : BotState) (p : Position)
    (hg : env.getPosition = .ok (some p)) (hq : p.qty ≠ 0)
    (hv : p.entryValue ≠ st.tracked_position_value)
    (hnz : p.entryValue ≠ 0) :
    active_tick env st =
      .ok ({ st with tracked_position_value := p.entryValue },
        (if compute_stop_price st.stop_loss_usd p.avgOpenPrice p.entryValue
              p.side ≤ 0 then []
         else cancel_existing_tpsl_orders env st.symbol ++
           (set_position_sl env st.symbol p.positionId
             (compute_stop_price st.stop_loss_usd p.avgOpenPrice p.entryValue
               p.side)).1) ++
        (if st.is_tp_active then
           cancel_existing_tp_limit_orders env st.symbol p.side ++
             (set_limit_tp_order env st.symbol p.side p.positionId p.qty
               (compute_tp_price st.tp_percentage p.avgOpenPrice p.side)).1
         else [])) := by
  unfold active_tick
  rw [hg]
  simp [hq, hv, hnz]

lemma active_tick_zero_division (env : ApiEnv) (st : BotState)
    (p : Position) (hg : env.getPosition = .ok (some p)) (hq : p.qty ≠ 0)
    (hv : p.entryValue ≠ st.tracked_position_value)
    (hz : p.entryValue = 0) :
    active_tick env st = .error .zeroDivisionError := by
  unfold active_tick
  rw [hg]
  dsimp only
  rw [if_pos hq, if_pos hv, if_pos hz]

lemma active_tick_noop (env : ApiEnv) (st : BotState) (p : Position)
    (hg : env.getPosition = .ok (some p)) (hq : p.qty ≠ 0)
    (hv : p.entryValue = st.tracked_position_value) :
    active_tick env st = .ok (st, []) := by
  unfold active_tick
  rw [hg]
  simp [hq, hv]

lemma active_tick_raises (env : ApiEnv) (st : BotState) (e : PyExc)
    (hg : env.getPosition = .error e) : active_tick env st = .error e := by
  unfold active_tick
  rw [hg]

lemma active_tick_closed_none (env : ApiEnv) (st : BotState)
    (hg : env.getPosition = .ok none) :
    active_tick env st = close_position_branch env st := by
  unfold active_tick
  rw [hg]

lemma active_tick_closed_qty_zero (env : ApiEnv) (st : BotState)
    (p : Position) (hg : env.getPosition = .ok (some p)) (hq : p.qty = 0) :
    active_tick env st = close_position_branch env st := by
  unfold active_tick
  rw [hg]
  simp [hq]

lemma inactive_tick_actions_nil (env : ApiEnv)
    (settings : Option UserSettings) (st : BotState) (st' : BotState)
    (acts : List Action)
    (h : inactive_tick env settings st = .ok (st', acts)) : acts = [] := by
  unfold inactive_tick at h
  rcases settings with _ | s
  · simp at h
    exact h.2
  · rcases henv : env.getPosition with e | pos <;> rw [henv] at h
    · simp at h
    · rcases pos with _ | p <;> simp at h
      · exact h.2
      · split at h <;> simp at h <;> exact h.2

/-! ## The claims -/

/-- C4: during a reconciling tick the stop-loss trigger price is computed
as `percentage = stopLossBudget * 100 / notionalValue`,
`delta = entryPrice * percentage / 100`, and `trigger = entryPrice − delta`
for a long (BUY) position and `entryPrice + delta` for a short (SELL)
position; for entry price 100 and a budget yielding 5% the trigger is 95
for a long and 105 for a short. -/
theorem claim_C4 :
    (∀ (stopLossBudget entryPrice notionalValue : ℚ) (side : String),
      compute_stop_price stopLossBudget entryPrice notionalValue side =
        if side = "BUY" then
          entryPrice -
            entryPrice * (stopLossBudget * 100 / notionalValue) / 100
        else
          entryPrice +
            entryPrice * (stopLossBudget * 100 / notionalValue) / 100) ∧
    compute_stop_price 5 100 100 "BUY" = 95 ∧
    compute_stop_price 5 100 100 "SELL" = 105 := by
  refine ⟨fun sl e v side => ?_, by norm_num [compute_stop_price],
    by norm_num [compute_stop_price]; decide⟩
  unfold compute_stop_price
  split <;> ring

/-- C6: the signature function is a pure function of the six string inputs
and coincides with the reference definition worded by the spec: SHA-256 hex
digest of `nonce ∥ timestamp ∥ apiKey ∥ canonicalQuery ∥ canonicalBody`,
then SHA-256 hex digest of that digest with the secret key appended. -/
theorem claim_C6 :
    ∀ api_key secret_key nonce timestamp query_params body : String,
      generate_signature api_key secret_key nonce timestamp query_params
          body =
        sign_spec api_key secret_key nonce timestamp query_params body :=
  fun _ _ _ _ _ _ => rfl

/-- C3 counterexample: the canonical body string passed to the signer for
the POST data `\x7b"a": 1\x7d` is produced by `json.dumps` with its default
separators and DOES contain inserted whitespace (a space, code point 32,
after the colon), contradicting the claim that the serialized body
contains no inserted whitespace. -/
theorem claim_C3_counterexample :
    post_sign_body (some [("a", JScalar.num 1)]) = "\x7b\"a\": 1\x7d" ∧
    Char.ofNat 32 ∈ (post_sign_body (some [("a", JScalar.num 1)])).data := by
  constructor
  · decide
  · decide

/-- C3 amended: for every POST request the body string passed to the
signer and the body text transmitted on the wire are produced by the same
deterministic serialization and are therefore equal — the signature is
computed over the same bytes that are sent — but the serialization is
performed twice (once in `post` for signing and once inside the transport
for transmission) and inserts a space after every colon and comma
separator. -/
theorem claim_C3_amended :
    ∀ data : Option (List (String × JScalar)),
      post_sign_body data = post_wire_body data :=
  fun _ => rfl

/-- C7 counterexample: a response with the 2xx transport status 201 and
the success business code 0 is rejected as an HTTP status error instead of
having its payload returned, because `_handle_response` tests
`status_code != 200`, not "non-2xx". -/
theorem claim_C7_counterexample :
    handle_response (fun _ => none)
        { status_code := 201, code := 0, msg := "", data := (42 : Nat) } =
      .error (.httpStatusError 201) ∧
    200 ≤ 201 ∧ 201 < 300 := by
  refine ⟨rfl, by norm_num, by norm_num⟩

/-- C7 amended: any status other than exactly 200 fails as an
HttpStatusError; a 200 response whose business code is not 0 fails as an
ApiError, resolved against the error table when possible and otherwise
surfaced with the unknown code and message; otherwise the embedded data
payload is returned unwrapped. -/
theorem claim_C7_amended :
    ∀ (α : Type) (getByCode : ℤ → Option String) (r : HttpResponse α),
      (r.status_code ≠ 200 →
        handle_response getByCode r =
          .error (.httpStatusError r.status_code)) ∧
      (r.status_code = 200 → r.code ≠ 0 →
        ((∃ e, getByCode r.code = some e ∧
            handle_response getByCode r = .error (.apiErrorKnown e)) ∨
          (getByCode r.code = none ∧
            handle_response getByCode r =
              .error (.apiErrorUnknown r.code r.msg)))) ∧
      (r.status_code = 200 → r.code = 0 →
        handle_response getByCode r = .ok r.data) := by
  intro α getByCode r
  refine ⟨fun hs => ?_, fun hs hc => ?_, fun hs hc => ?_⟩
  · simp [handle_response, hs]
  · rcases htab : getByCode r.code with _ | e
    · exact Or.inr ⟨rfl, by simp [handle_response, hs, hc, htab]⟩
    · exact Or.inl ⟨e, rfl, by simp [handle_response, hs, hc, htab]⟩
  · simp [handle_response, hs, hc]

/-- C7 witness: the three decode branches at concrete responses. -/
theorem claim_C7_amended_witness :
    handle_response (fun c => if c = 5 then some "param error" else none)
        { status_code := 404, code := 0, msg := "", data := (0 : Nat) } =
      .error (.httpStatusError 404) ∧
    ((∃ e, (if (5 : ℤ) = 5 then some "param error" else none) = some e ∧
        handle_response (fun c => if c = 5 then some "param error" else none)
            { status_code := 200, code := 5, msg := "m", data := (0 : Nat) } =
          .error (.apiErrorKnown e)) ∨
      ((if (5 : ℤ) = 5 then (some "param error" : Option String)
          else none) = none ∧
        handle_response (fun c => if c = 5 then some "param error" else none)
            { status_code := 200, code := 5, msg := "m", data := (0 : Nat) } =
          .error (.apiErrorUnknown 5 "m"))) ∧
    handle_response (fun c => if c = 5 then some "param error" else none)
        { status_code := 200, code := 0, msg := "", data := (7 : Nat) } =
      .ok 7 := by
  refine ⟨(claim_C7_amended Nat _ _).1 (by decide),
    (claim_C7_amended Nat (fun c => if c = 5 then some "param error" else none)
      { status_code := 200, code := 5, msg := "m", data := (0 : Nat) }).2.1
      rfl (by decide),
    (claim_C7_amended Nat _ _).2.2 rfl rfl⟩

/-- Two permutations of an association list with distinct keys have the
same insertion sort. -/
lemma insertionSort_eq_of_perm {l₁ l₂ : List (String × String)}
    (hp : l₁.Perm l₂) (hn : (l₁.map Prod.fst).Nodup) :
    l₁.insertionSort pairLe = l₂.insertionSort pairLe := by
  have hp₁ : (l₁.insertionSort pairLe).Perm l₁ := List.perm_insertionSort _ _
  have hp₂ : (l₂.insertionSort pairLe).Perm l₂ := List.perm_insertionSort _ _
  have hperm : (l₁.insertionSort pairLe).Perm (l₂.insertionSort pairLe) :=
    (hp₁.trans hp).trans hp₂.symm
  have hs₁ : List.Sorted pairLe (l₁.insertionSort pairLe) :=
    List.sorted_insertionSort pairLe l₁
  have hs₂ : List.Sorted pairLe (l₂.insertionSort pairLe) :=
    List.sorted_insertionSort pairLe l₂
  have hn₁ : ((l₁.insertionSort pairLe).map Prod.fst).Nodup :=
    (hp₁.map Prod.fst).nodup_iff.mpr hn
  have hn₂ : ((l₂.insertionSort pairLe).map Prod.fst).Nodup :=
    ((hp₂.map Prod.fst).trans (hp.symm.map Prod.fst)).nodup_iff.mpr hn
  have strict : ∀ {l : List (String × String)}, List.Sorted pairLe l →
      ((l.map Prod.fst).Nodup) → List.Sorted pairKeyLt l := by
    intro l hs hnd
    have hne : l.Pairwise fun p q => p.1 ≠ q.1 := by
      rw [List.Nodup, List.pairwise_map] at hnd
      exact hnd
    refine (hs.and hne).imp ?_
    rintro a b ⟨hab, hne'⟩
    rcases hab with h | ⟨h, _⟩
    · exact h
    · exact absurd h hne'
  exact List.eq_of_perm_of_sorted hperm (strict hs₁ hn₁) (strict hs₂ hn₂)

/-- C9: the canonical query string sorts the parameters by key and
concatenates key directly followed by value, with no separators; the
result does not depend on insertion order (for the distinct keys of a
Python dictionary), and the empty parameter set canonicalizes to the
empty string. -/
theorem claim_C9 :
    sort_params [("b", "2"), ("a", "1")] = "a1b2" ∧
    sort_params [("a", "1"), ("b", "2")] = "a1b2" ∧
    sort_params [] = "" ∧
    ∀ l₁ l₂ : List (String × String), l₁.Perm l₂ →
      (l₁.map Prod.fst).Nodup → sort_params l₁ = sort_params l₂ := by
  refine ⟨by decide, by decide, rfl, fun l₁ l₂ hp hn => ?_⟩
  rcases hl₁ : l₁ with _ | ⟨x, xs⟩
  · rw [hl₁] at hp
    rw [hp.nil_eq]
  · rw [hl₁] at hp hn
    have hl₂ : l₂ ≠ [] := by
      intro h
      rw [h] at hp
      exact absurd hp.eq_nil (by simp)
    unfold sort_params
    rw [if_neg (by simp), if_neg hl₂, insertionSort_eq_of_perm hp hn]

/-- C9 witness: insertion-order independence at the spec's example. -/
theorem claim_C9_witness :
    ([("b", "2"), ("a", "1")] : List (String × String)).Perm
        [("a", "1"), ("b", "2")] ∧
    (([("b", "2"), ("a", "1")] : List (String × String)).map
        Prod.fst).Nodup ∧
    sort_params [("b", "2"), ("a", "1")] =
      sort_params [("a", "1"), ("b", "2")] :=
  ⟨List.Perm.swap _ _ _, by decide,
    claim_C9.2.2.2 _ _ (List.Perm.swap _ _ _) (by decide)⟩

/-- C8: the price adjuster computes tick size `10^(−precision)`, floors
the price to the tick grid (toward zero, i.e. floor for non-negative
prices) in exact arithmetic, returns `12.3456` for precision 4 and raw
price `12.34567`, and falls back to the unadjusted price on every lookup
failure (call raising, instrument not found, precision missing). -/
theorem claim_C8 :
    (∀ (env : ApiEnv) (symbol : String) (price : ℚ) (p : ℕ),
      env.instrumentInfo = .ok (some (some (p : ℤ))) → 0 ≤ price →
      adjust_price_to_precision env symbol price =
        (⌊price * 10 ^ p⌋ : ℚ) / 10 ^ p) ∧
    (∀ (env : ApiEnv) (symbol : String) (price : ℚ) (e : PyExc),
      env.instrumentInfo = .error e →
      adjust_price_to_precision env symbol price = price) ∧
    (∀ (env : ApiEnv) (symbol : String) (price : ℚ),
      env.instrumentInfo = .ok none →
      adjust_price_to_precision env symbol price = price) ∧
    (∀ (env : ApiEnv) (symbol : String) (price : ℚ),
      env.instrumentInfo = .ok (some none) →
      adjust_price_to_precision env symbol price = price) ∧
    (∀ (env : ApiEnv) (symbol : String),
      env.instrumentInfo = .ok (some (some 4)) →
      adjust_price_to_precision env symbol (1234567 / 100000) =
          123456 / 10000 ∧
      adjust_price_to_precision env symbol (1234567 / 100000) ≠
          123457 / 10000) := by
  have key : ∀ (env : ApiEnv) (symbol : String) (price : ℚ) (p : ℕ),
      env.instrumentInfo = .ok (some (some (p : ℤ))) → 0 ≤ price →
      adjust_price_to_precision env symbol price =
        (⌊price * 10 ^ p⌋ : ℚ) / 10 ^ p := by
    intro env symbol price p h hprice
    unfold adjust_price_to_precision
    rw [h]
    dsimp only
    rw [zpow_neg, zpow_natCast, div_eq_mul_inv _ ((10 : ℚ) ^ _)⁻¹, inv_inv]
    have hpos : (0 : ℚ) ≤ price * 10 ^ p :=
      mul_nonneg hprice (by positivity)
    rw [truncQ, if_pos hpos, div_eq_mul_inv]
  refine ⟨key, ?_, ?_, ?_, ?_⟩
  · intro env symbol price e h
    unfold adjust_price_to_precision
    rw [h]
  · intro env symbol price h
    unfold adjust_price_to_precision
    rw [h]
  · intro env symbol price h
    unfold adjust_price_to_precision
    rw [h]
  · intro env symbol h
    have h4 := key env symbol (1234567 / 100000) 4 (by exact_mod_cast h)
      (by norm_num)
    constructor
    · rw [h4]
      norm_num
    · rw [h4]
      norm_num

/-- A demonstration environment whose instrument lookup reports quote
precision 4. -/
def envPrec4 : ApiEnv :=
  { getPosition := .ok none, instrumentInfo := .ok (some (some 4)),
    pendingTpslIds := .ok [], openOrders := .ok [],
    cancelOrdersResult := .ok (), placeTpslResult := .ok (),
    placeOrderResult := .ok (), cancelAllResult := .ok () }

/-- C8 witness: precision 4 floors 12.34567 to 12.3456. -/
theorem claim_C8_witness :
    envPrec4.instrumentInfo = .ok (some (some 4)) ∧
    adjust_price_to_precision envPrec4 "BTCUSDT" (1234567 / 100000) =
      123456 / 10000 :=
  ⟨rfl, (claim_C8.2.2.2.2 envPrec4 "BTCUSDT" rfl).1⟩

/-! ## Loop-level helper lemmas -/

lemma close_position_branch_ok (env : ApiEnv) (st : BotState)
    (h : env.cancelAllResult = .ok ()) :
    close_position_branch env st =
      .ok (reset_bot_state st, [.cancelAllOrders st.symbol]) := by
  unfold close_position_branch
  rw [h]

lemma close_position_branch_error (env : ApiEnv) (st : BotState) (e : PyExc)
    (h : env.cancelAllResult = .error e) :
    close_position_branch env st = .error e := by
  unfold close_position_branch
  rw [h]

lemma loop_body_active_ok (env : ApiEnv) (settings : Option UserSettings)
    (st st' : BotState) (acts : List Action) (hact : st.is_active = true)
    (h : active_tick env st = .ok (st', acts)) :
    loop_body env settings st = ⟨st', acts, false⟩ := by
  unfold loop_body
  rw [hact]
  simp [h]

lemma loop_body_active_error (env : ApiEnv) (settings : Option UserSettings)
    (st : BotState) (e : PyExc) (hact : st.is_active = true)
    (h : active_tick env st = .error e) :
    loop_body env settings st = ⟨reset_bot_state st, [], true⟩ := by
  unfold loop_body
  rw [hact]
  simp [h]

/-- A closed-position snapshot (quantity 0). -/
def posZero : Position :=
  { qty := 0, avgOpenPrice := 100, entryValue := 0, side := "BUY",
    positionId := "1" }

/-- A tracked ACTIVE state with a 5 USDT stop-loss budget. -/
def stTracked : BotState :=
  { symbol := "BTCUSDT", stop_loss_usd := 5, is_active := true,
    tracked_position_value := 100, is_tp_active := true, tp_percentage := 1 }

/-- An environment whose position lookup reports quantity 0 and where
every order call succeeds. -/
def envClosed : ApiEnv :=
  { getPosition := .ok (some posZero), instrumentInfo := .ok none,
    pendingTpslIds := .ok [], openOrders := .ok [],
    cancelOrdersResult := .ok (), placeTpslResult := .ok (),
    placeOrderResult := .ok (), cancelAllResult := .ok () }

/-- C2: when the tracked position closes, the code cancels all outstanding
orders for the symbol and then resets the state — but `reset_bot_state`
never assigns `stop_loss_usd` (although it declares it `global`, and its
docstring promises to reset all global state variables), so the stop-loss
budget is NOT reset to zero: starting from a budget of 5 it is still 5
after the reset, while every other field does return to its default. -/
theorem claim_C2_code_divergence :
    loop_body envClosed none stTracked =
      ⟨{ symbol := "", stop_loss_usd := 5, is_active := false,
         tracked_position_value := 0, is_tp_active := false,
         tp_percentage := 0 },
       [Action.cancelAllOrders "BTCUSDT"], false⟩ ∧
    (reset_bot_state stTracked).stop_loss_usd = 5 ∧ (5 : ℚ) ≠ 0 := by
  have hg : envClosed.getPosition = .ok (some posZero) := rfl
  have hclose := active_tick_closed_qty_zero envClosed stTracked posZero hg
    rfl
  have hok := close_position_branch_ok envClosed stTracked rfl
  refine ⟨?_, rfl, by norm_num⟩
  rw [loop_body_active_ok envClosed none stTracked _ _ rfl
    (hclose.trans hok)]
  rfl

/-- A live long position: qty 1, entry 100, notional 100. -/
def posLong : Position :=
  { qty := 1, avgOpenPrice := 100, entryValue := 100, side := "BUY",
    positionId := "1" }

/-- An ACTIVE state with tracked value 0 (first reconciliation pending). -/
def stSL : BotState :=
  { symbol := "BTCUSDT", stop_loss_usd := 5, is_active := true,
    tracked_position_value := 0, is_tp_active := false, tp_percentage := 0 }

/-- An environment where the stop-loss place call raises an ApiError and
everything else succeeds. -/
def envApiErrorOnPlace : ApiEnv :=
  { getPosition := .ok (some posLong), instrumentInfo := .ok (some (some 4)),
    pendingTpslIds := .ok [], openOrders := .ok [],
    cancelOrdersResult := .ok (), placeTpslResult := .error (.apiError 20001),
    placeOrderResult := .ok (), cancelAllResult := .ok () }

/-- C1 counterexample: during an ACTIVE tick whose stop-loss place call
raises an ApiError, the call is attempted (the place action is in the
trace and its outcome in the environment is the ApiError), yet the
exception is swallowed inside the helper `set_position_sl`: the tick ends
with NO 10-second recovery sleep and the state still ACTIVE on the same
symbol — contradicting the claim that every such exception is caught at
the top of the loop body with a full reset to INACTIVE and the recovery
delay. -/
theorem claim_C1_counterexample :
    envApiErrorOnPlace.placeTpslResult = .error (.apiError 20001) ∧
    (∃ pr, Action.placePositionTpsl "BTCUSDT" "1" pr ∈
      (loop_body envApiErrorOnPlace none stSL).actions) ∧
    (loop_body envApiErrorOnPlace none stSL).recovery_sleep = false ∧
    (loop_body envApiErrorOnPlace none stSL).state.is_active = true ∧
    (loop_body envApiErrorOnPlace none stSL).state.symbol = "BTCUSDT" := by
  have hg : envApiErrorOnPlace.getPosition = .ok (some posLong) := rfl
  have hq : posLong.qty ≠ 0 := by norm_num [posLong]
  have hv : posLong.entryValue ≠ stSL.tracked_position_value := by
    norm_num [posLong, stSL]
  have hrec := active_tick_reconcile envApiErrorOnPlace stSL posLong hg hq hv
    (by norm_num [posLong])
  have hloop := loop_body_active_ok envApiErrorOnPlace none stSL _ _ rfl hrec
  have hstop : compute_stop_price stSL.stop_loss_usd posLong.avgOpenPrice
      posLong.entryValue posLong.side = 95 := by
    norm_num [compute_stop_price, stSL, posLong]
  refine ⟨rfl, ?_, by rw [hloop], ?_, ?_⟩
  · rw [hloop]
    dsimp only
    rw [hstop, if_neg (by norm_num : ¬(95 : ℚ) ≤ 0),
      show stSL.is_tp_active = false from rfl]
    refine ⟨adjust_price_to_precision envApiErrorOnPlace stSL.symbol 95, ?_⟩
    rw [set_position_sl_fst]
    simp [stSL, posLong, cancel_existing_tpsl_orders, envApiErrorOnPlace]
  · rw [hloop]
    rfl
  · rw [hloop]
    rfl

/-- C1 amended: an exception raised while fetching the position, while
cancelling all orders after the position closed, or by the stop-loss
percentage division itself (`ZeroDivisionError` when the live notional
value is 0 on a reconciling tick) escapes the tick and is caught by the
top-level handler, which resets the state with `reset_bot_state` and
sleeps the fixed 10-second recovery delay; but when the position fetch
succeeds with a live position of non-zero notional value, the tick always
completes without the recovery path — exceptions inside the cancel/place
helpers (including an ApiError during stop-loss or take-profit placement)
are caught and logged inside those helpers, with no reset and no recovery
delay. -/
theorem claim_C1_amended :
    (∀ (env : ApiEnv) (settings : Option UserSettings) (st : BotState)
        (e : PyExc), st.is_active = true → env.getPosition = .error e →
      loop_body env settings st = ⟨reset_bot_state st, [], true⟩) ∧
    (∀ (env : ApiEnv) (settings : Option UserSettings) (st : BotState)
        (e : PyExc), st.is_active = true → env.getPosition = .ok none →
      env.cancelAllResult = .error e →
      loop_body env settings st = ⟨reset_bot_state st, [], true⟩) ∧
    (∀ (env : ApiEnv) (settings : Option UserSettings) (st : BotState)
        (p : Position), st.is_active = true →
      env.getPosition = .ok (some p) → p.qty ≠ 0 → p.entryValue ≠ 0 →
      ∃ st' acts, loop_body env settings st = ⟨st', acts, false⟩) ∧
    (∀ (env : ApiEnv) (settings : Option UserSettings) (st : BotState)
        (p : Position), st.is_active = true →
      env.getPosition = .ok (some p) → p.qty ≠ 0 →
      p.entryValue ≠ st.tracked_position_value → p.entryValue = 0 →
      loop_body env settings st = ⟨reset_bot_state st, [], true⟩) ∧
    RECOVERY_DELAY_SECONDS = 10 := by
  refine ⟨?_, ?_, ?_, ?_, rfl⟩
  · intro env s st e hact hg
    exact loop_body_active_error env s st e hact
      (active_tick_raises env st e hg)
  · intro env s st e hact hg hc
    exact loop_body_active_error env s st e hact
      ((active_tick_closed_none env st hg).trans
        (close_position_branch_error env st e hc))
  · intro env s st p hact hg hq hnz
    by_cases hv : p.entryValue = st.tracked_position_value
    · exact ⟨st, [], loop_body_active_ok env s st st [] hact
        (active_tick_noop env st p hg hq hv)⟩
    · exact ⟨_, _, loop_body_active_ok env s st _ _ hact
        (active_tick_reconcile env st p hg hq hv hnz)⟩
  · intro env s st p hact hg hq hv hz
    exact loop_body_active_error env s st .zeroDivisionError hact
      (active_tick_zero_division env st p hg hq hv hz)

/-- An environment whose position fetch itself raises. -/
def envRaise : ApiEnv :=
  { getPosition := .error .other, instrumentInfo := .ok none,
    pendingTpslIds := .ok [], openOrders := .ok [],
    cancelOrdersResult := .ok (), placeTpslResult := .ok (),
    placeOrderResult := .ok (), cancelAllResult := .ok () }

/-- A live position whose reported notional value is 0: the reconciling
division raises `ZeroDivisionError`. -/
def posZeroValue : Position :=
  { qty := 1, avgOpenPrice := 100, entryValue := 0, side := "BUY",
    positionId := "1" }

/-- Environment serving the zero-notional live position, all calls
succeeding. -/
def envZeroValue : ApiEnv :=
  { getPosition := .ok (some posZeroValue),
    instrumentInfo := .ok (some (some 4)), pendingTpslIds := .ok [],
    openOrders := .ok [], cancelOrdersResult := .ok (),
    placeTpslResult := .ok (), placeOrderResult := .ok (),
    cancelAllResult := .ok () }

/-- C1 witness: the recovery path at a concrete raising fetch, the
no-recovery path at a concrete tick whose place call raises, and the
recovery path at a concrete zero-notional reconciling tick. -/
theorem claim_C1_amended_witness :
    stTracked.is_active = true ∧
    envRaise.getPosition = .error PyExc.other ∧
    loop_body envRaise none stTracked =
      ⟨reset_bot_state stTracked, [], true⟩ ∧
    (∃ st' acts, loop_body envApiErrorOnPlace none stSL =
      ⟨st', acts, false⟩) ∧
    envZeroValue.getPosition = .ok (some posZeroValue) ∧
    posZeroValue.entryValue = 0 ∧
    loop_body envZeroValue none stTracked =
      ⟨reset_bot_state stTracked, [], true⟩ :=
  ⟨rfl, rfl, claim_C1_amended.1 envRaise none stTracked .other rfl rfl,
    claim_C1_amended.2.2.1 envApiErrorOnPlace none stSL posLong rfl rfl
      (by norm_num [posLong]) (by norm_num [posLong]),
    rfl, rfl,
    claim_C1_amended.2.2.2.1 envZeroValue none stTracked posZeroValue rfl
      rfl (by norm_num [posZeroValue])
      (by norm_num [posZeroValue, stTracked]) rfl⟩

lemma loop_body_inactive_ok (env : ApiEnv) (settings : Option UserSettings)
    (st st' : BotState) (acts : List Action) (hact : st.is_active = false)
    (h : inactive_tick env settings st = .ok (st', acts)) :
    loop_body env settings st = ⟨st', acts, false⟩ := by
  unfold loop_body
  rw [hact]
  simp [h]

lemma loop_body_inactive_error (env : ApiEnv)
    (settings : Option UserSettings) (st : BotState) (e : PyExc)
    (hact : st.is_active = false)
    (h : inactive_tick env settings st = .error e) :
    loop_body env settings st = ⟨reset_bot_state st, [], true⟩ := by
  unfold loop_body
  rw [hact]
  simp [h]

/-- C5: when the computed stop-loss trigger is ≤ 0 on a reconciling tick,
the stop side is skipped entirely — no pending-TP/SL lookup-and-cancel and
no stop-loss place call appear in the trace; and across every possible
iteration of the loop, a stop-loss place action only ever occurs when the
computed trigger for the fetched position is strictly positive. -/
theorem claim_C5 :
    (∀ (env : ApiEnv) (st : BotState) (p : Position),
      env.getPosition = .ok (some p) → p.qty ≠ 0 →
      p.entryValue ≠ st.tracked_position_value →
      compute_stop_price st.stop_loss_usd p.avgOpenPrice p.entryValue p.side
          ≤ 0 →
      ∀ (st' : BotState) (acts : List Action),
        active_tick env st = .ok (st', acts) →
        (∀ sym, Action.getPendingTpsl sym ∉ acts) ∧
        (∀ sym pid pr, Action.placePositionTpsl sym pid pr ∉ acts)) ∧
    (∀ (env : ApiEnv) (settings : Option UserSettings) (st : BotState)
        (sym pid : String) (pr : ℚ),
      Action.placePositionTpsl sym pid pr ∈
        (loop_body env settings st).actions →
      ∃ p, env.getPosition = .ok (some p) ∧
        0 < compute_stop_price st.stop_loss_usd p.avgOpenPrice p.entryValue
          p.side) := by
  constructor
  · intro env st p hg hq hv hstop st' acts heq
    by_cases hnz : p.entryValue = 0
    · rw [active_tick_zero_division env st p hg hq hv hnz] at heq
      exact absurd heq (by simp)
    rw [active_tick_reconcile env st p hg hq hv hnz, if_pos hstop] at heq
    simp only [Except.ok.injEq, Prod.mk.injEq, List.nil_append] at heq
    obtain ⟨-, hacts⟩ := heq
    subst hacts
    constructor
    · intro sym hmem
      split at hmem
      · rcases List.mem_append.mp hmem with hm | hm
        · rcases mem_cancel_existing_tp_limit_orders hm with h | ⟨ids, h⟩ <;>
            simp at h
        · rw [set_limit_tp_order_fst] at hm
          simp at hm
      · simp at hmem
    · intro sym pid pr hmem
      split at hmem
      · rcases List.mem_append.mp hmem with hm | hm
        · rcases mem_cancel_existing_tp_limit_orders hm with h | ⟨ids, h⟩ <;>
            simp at h
        · rw [set_limit_tp_order_fst] at hm
          simp at hm
      · simp at hmem
  · intro env settings st sym pid pr hmem
    by_cases hact : st.is_active = true
    · rcases hg : env.getPosition with e | pos
      · rw [loop_body_active_error env settings st e hact
          (active_tick_raises env st e hg)] at hmem
        simp at hmem
      · rcases pos with _ | p
        · rcases hc : env.cancelAllResult with ec | u
          · rw [loop_body_active_error env settings st ec hact
              ((active_tick_closed_none env st hg).trans
                (close_position_branch_error env st ec hc))] at hmem
            simp at hmem
          · cases u
            rw [loop_body_active_ok env settings st _ _ hact
              ((active_tick_closed_none env st hg).trans
                (close_position_branch_ok env st hc))] at hmem
            simp at hmem
        · by_cases hq : p.qty = 0
          · rcases hc : env.cancelAllResult with ec | u
            · rw [loop_body_active_error env settings st ec hact
                ((active_tick_closed_qty_zero env st p hg hq).trans
                  (close_position_branch_error env st ec hc))] at hmem
              simp at hmem
            · cases u
              rw [loop_body_active_ok env settings st _ _ hact
                ((active_tick_closed_qty_zero env st p hg hq).trans
                  (close_position_branch_ok env st hc))] at hmem
              simp at hmem
          · by_cases hv : p.entryValue = st.tracked_position_value
            · rw [loop_body_active_ok env settings st _ _ hact
                (active_tick_noop env st p hg hq hv)] at hmem
              simp at hmem
            · by_cases hnz : p.entryValue = 0
              · rw [loop_body_active_error env settings st .zeroDivisionError
                    hact
                    (active_tick_zero_division env st p hg hq hv hnz)] at hmem
                simp at hmem
              · rw [loop_body_active_ok env settings st _ _ hact
                  (active_tick_reconcile env st p hg hq hv hnz)] at hmem
                dsimp only at hmem
                rcases List.mem_append.mp hmem with hm | hm
                · by_cases hstop : compute_stop_price st.stop_loss_usd
                      p.avgOpenPrice p.entryValue p.side ≤ 0
                  · rw [if_pos hstop] at hm
                    simp at hm
                  · exact ⟨p, rfl, not_le.mp hstop⟩
                · exfalso
                  split at hm
                  · rcases List.mem_append.mp hm with hm' | hm'
                    · rcases mem_cancel_existing_tp_limit_orders hm' with
                        h | ⟨ids, h⟩ <;> simp at h
                    · rw [set_limit_tp_order_fst] at hm'
                      simp at hm'
                  · simp at hm
    · have hact' : st.is_active = false := by
        simpa using hact
      rcases hi : inactive_tick env settings st with e | ⟨st', acts⟩
      · rw [loop_body_inactive_error env settings st e hact' hi] at hmem
        simp at hmem
      · rw [loop_body_inactive_ok env settings st st' acts hact' hi] at hmem
        rw [inactive_tick_actions_nil env settings st st' acts hi] at hmem
        simp at hmem

/-- C10 counterexample: a reconciling tick (quantity non-zero, notional
value differing from the tracked value) whose reported notional value is
0 does NOT end with the tracked value updated and does NOT
cancel-and-place the enabled take-profit: the percentage division raises
`ZeroDivisionError`, the tick issues no calls at all, and the top-level
handler resets the state and takes the recovery sleep. -/
theorem claim_C10_counterexample :
    envZeroValue.getPosition = .ok (some posZeroValue) ∧
    posZeroValue.qty ≠ 0 ∧
    posZeroValue.entryValue ≠ stTracked.tracked_position_value ∧
    stTracked.is_tp_active = true ∧
    active_tick envZeroValue stTracked = .error PyExc.zeroDivisionError ∧
    (loop_body envZeroValue none stTracked).actions = [] ∧
    (loop_body envZeroValue none stTracked).state.is_active = false ∧
    (loop_body envZeroValue none stTracked).recovery_sleep = true := by
  have hg : envZeroValue.getPosition = .ok (some posZeroValue) := rfl
  have hq : posZeroValue.qty ≠ 0 := by norm_num [posZeroValue]
  have hv : posZeroValue.entryValue ≠ stTracked.tracked_position_value := by
    norm_num [posZeroValue, stTracked]
  have herr := active_tick_zero_division envZeroValue stTracked posZeroValue
    hg hq hv rfl
  have hloop := loop_body_active_error envZeroValue none stTracked
    .zeroDivisionError rfl herr
  exact ⟨hg, hq, hv, rfl, herr, by rw [hloop], by rw [hloop]; rfl,
    by rw [hloop]⟩

/-- C10 amended: on every reconciling tick whose observed notional value
is non-zero, the tick ends with the tracked notional value updated to the
newly observed value — also when the stop-loss placement is skipped
because the computed trigger is ≤ 0 — the take-profit side (when enabled)
still performs its lookup-and-cancel and places the limit order, and a
later tick with the same notional value issues no calls at all (so a
skipped stop-loss is not retried).  (A reconciling tick with notional
value 0 instead raises `ZeroDivisionError` into the recovery path.) -/
theorem claim_C10 :
    ∀ (env : ApiEnv) (st : BotState) (p : Position),
      env.getPosition = .ok (some p) → p.qty ≠ 0 →
      p.entryValue ≠ st.tracked_position_value → p.entryValue ≠ 0 →
      (∃ acts, active_tick env st =
          .ok ({ st with tracked_position_value := p.entryValue }, acts) ∧
        (st.is_tp_active = true →
          Action.getOpenOrders st.symbol ∈ acts ∧
          Action.placeOrder st.symbol
              (if p.side = "BUY" then "SELL" else "BUY") p.qty
              (adjust_price_to_precision env st.symbol
                (compute_tp_price st.tp_percentage p.avgOpenPrice p.side))
              "CLOSE" p.positionId ∈ acts)) ∧
      (∀ (env2 : ApiEnv) (p2 : Position),
        env2.getPosition = .ok (some p2) → p2.qty ≠ 0 →
        p2.entryValue = p.entryValue →
        active_tick env2
            { st with tracked_position_value := p.entryValue } =
          .ok ({ st with tracked_position_value := p.entryValue }, [])) := by
  intro env st p hg hq hv hnz
  constructor
  · refine ⟨_, active_tick_reconcile env st p hg hq hv hnz, fun htp => ?_⟩
    constructor
    · refine List.mem_append_right _ ?_
      rw [if_pos htp]
      exact List.mem_append_left _
        (getOpenOrders_mem_cancel_existing_tp_limit_orders env st.symbol
          p.side)
    · refine List.mem_append_right _ ?_
      rw [if_pos htp]
      refine List.mem_append_right _ ?_
      rw [set_limit_tp_order_fst]
      exact List.mem_singleton.mpr rfl
  · intro env2 p2 hg2 hq2 hv2
    exact active_tick_noop env2 _ p2 hg2 hq2 hv2

/-- Oversized budget: 200 USDT of stop-loss budget on a 100 USDT notional
position, driving the computed trigger below zero. -/
def stBigBudget : BotState :=
  { symbol := "BTCUSDT", stop_loss_usd := 200, is_active := true,
    tracked_position_value := 0, is_tp_active := true, tp_percentage := 1 }

/-- Environment serving the live long position with all calls
succeeding. -/
def envBigBudget : ApiEnv :=
  { getPosition := .ok (some posLong), instrumentInfo := .ok (some (some 4)),
    pendingTpslIds := .ok [], openOrders := .ok [],
    cancelOrdersResult := .ok (), placeTpslResult := .ok (),
    placeOrderResult := .ok (), cancelAllResult := .ok () }

/-- C10 witness: with the oversized budget (trigger −100 ≤ 0) the tick
still updates the tracked value, the enabled take-profit still runs its
lookup, and a second tick at the same notional value is a no-op. -/
theorem claim_C10_witness :
    envBigBudget.getPosition = .ok (some posLong) ∧
    posLong.qty ≠ 0 ∧
    posLong.entryValue ≠ stBigBudget.tracked_position_value ∧
    posLong.entryValue ≠ 0 ∧
    compute_stop_price stBigBudget.stop_loss_usd posLong.avgOpenPrice
        posLong.entryValue posLong.side ≤ 0 ∧
    stBigBudget.is_tp_active = true ∧
    (∃ acts, active_tick envBigBudget stBigBudget =
        .ok ({ stBigBudget with
          tracked_position_value := posLong.entryValue }, acts) ∧
      Action.getOpenOrders stBigBudget.symbol ∈ acts) ∧
    active_tick envBigBudget
        { stBigBudget with tracked_position_value := posLong.entryValue } =
      .ok ({ stBigBudget with
        tracked_position_value := posLong.entryValue }, []) := by
  obtain ⟨⟨acts, hrec, htp⟩, hnoop⟩ :=
    claim_C10 envBigBudget stBigBudget posLong rfl (by norm_num [posLong])
      (by norm_num [posLong, stBigBudget]) (by norm_num [posLong])
  exact ⟨rfl, by norm_num [posLong],
    by norm_num [posLong, stBigBudget], by norm_num [posLong],
    by norm_num [compute_stop_price, stBigBudget, posLong], rfl,
    ⟨acts, hrec, (htp rfl).1⟩,
    hnoop envBigBudget posLong rfl (by norm_num [posLong]) rfl⟩

/-- C5 witness: with the oversized budget the trigger is ≤ 0 and the tick
trace contains neither the pending-TP/SL lookup nor a stop-loss place
call; and the concrete stop-loss place action of the 95-trigger tick
certifies that a placed stop-loss always has a positive computed
trigger. -/
theorem claim_C5_witness :
    envBigBudget.getPosition = .ok (some posLong) ∧
    posLong.qty ≠ 0 ∧
    posLong.entryValue ≠ stBigBudget.tracked_position_value ∧
    compute_stop_price stBigBudget.stop_loss_usd posLong.avgOpenPrice
        posLong.entryValue posLong.side ≤ 0 ∧
    (∃ st' acts, active_tick envBigBudget stBigBudget = .ok (st', acts) ∧
      (∀ sym, Action.getPendingTpsl sym ∉ acts) ∧
      (∀ sym pid pr, Action.placePositionTpsl sym pid pr ∉ acts)) ∧
    (∃ p, envApiErrorOnPlace.getPosition = .ok (some p) ∧
      0 < compute_stop_price stSL.stop_loss_usd p.avgOpenPrice p.entryValue
        p.side) := by
  have hg : envBigBudget.getPosition = .ok (some posLong) := rfl
  have hq : posLong.qty ≠ 0 := by norm_num [posLong]
  have hv : posLong.entryValue ≠ stBigBudget.tracked_position_value := by
    norm_num [posLong, stBigBudget]
  have hstop : compute_stop_price stBigBudget.stop_loss_usd
      posLong.avgOpenPrice posLong.entryValue posLong.side ≤ 0 := by
    norm_num [compute_stop_price, stBigBudget, posLong]
  have hrec := active_tick_reconcile envBigBudget stBigBudget posLong hg hq
    hv (by norm_num [posLong])
  have H := claim_C5.1 envBigBudget stBigBudget posLong hg hq hv hstop _ _
    hrec
  refine ⟨hg, hq, hv, hstop, ⟨_, _, hrec, H.1, H.2⟩, ?_⟩
  have hg1 : envApiErrorOnPlace.getPosition = .ok (some posLong) := rfl
  have hv1 : posLong.entryValue ≠ stSL.tracked_position_value := by
    norm_num [posLong, stSL]
  have hrec1 := active_tick_reconcile envApiErrorOnPlace stSL posLong hg1
    hq hv1 (by norm_num [posLong])
  have hloop := loop_body_active_ok envApiErrorOnPlace none stSL _ _ rfl
    hrec1
  have hstop1 : compute_stop_price stSL.stop_loss_usd posLong.avgOpenPrice
      posLong.entryValue posLong.side = 95 := by
    norm_num [compute_stop_price, stSL, posLong]
  have hmem : Action.placePositionTpsl stSL.symbol posLong.positionId
      (adjust_price_to_precision envApiErrorOnPlace stSL.symbol 95) ∈
      (loop_body envApiErrorOnPlace none stSL).actions := by
    rw [hloop]
    dsimp only
    rw [hstop1, if_neg (by norm_num : ¬(95 : ℚ) ≤ 0),
      show stSL.is_tp_active = false from rfl]
    rw [set_position_sl_fst]
    simp
  exact claim_C5.2 envApiErrorOnPlace none stSL stSL.symbol
    posLong.positionId _ hmem

end AutoSLTP
